import Mathlib

/-!
Shallow embedding of the MCP3428 ADC driver
(src/esp-hal-drivers/src/mcp3428.rs) and verification of its
specification claims.

Machine integers are modelled as follows: u8 values are Nat taken mod 256
at the byte boundary, i16 values are Int in the range
[-32768, 32767], and 32-bit signed arithmetic is Int with an explicit
wrap at 2^32 (the function wrap32) at the one place the source performs
an i32 multiplication. Rust division on signed integers truncates toward
zero, which is Int.tdiv.

The I2C bus handle and the timer are external collaborators. They are
modelled by a stub: the outcome of the single bus write is a Bool
(true = success), and the outcomes of successive 3-byte bus reads are a
list of ReadResult values consumed in order. Each driver operation
returns its result together with the list of bus and timer events it
performed, in order. The polling loops of the source are unbounded; the
embedding recurses on the stub list and returns none when the stub is
exhausted, so every terminating behaviour of the source on a finite stub
is represented exactly.
-/

namespace Mcp3428

/-- Acquisition mode, from enum Mode in the source. -/
inductive Mode where
  | OneShot
  | Continuous
deriving DecidableEq

/-- Bit pattern of a mode, from the enum discriminants. -/
def Mode.bits : Mode → Nat
  | .OneShot => 0x00
  | .Continuous => 0x10

/-- Conversion bit resolution and sample rate, from enum Resolution. -/
inductive Resolution where
  | Bits16Sps15
  | Bits14Sps60
  | Bits12Sps240
deriving DecidableEq

/-- Bit pattern of a resolution, from the enum discriminants. -/
def Resolution.bits : Resolution → Nat
  | .Bits16Sps15 => 0x08
  | .Bits14Sps60 => 0x04
  | .Bits12Sps240 => 0x00

/-- Number of bits of accuracy, from Resolution::res_bits. -/
def Resolution.res_bits : Resolution → Nat
  | .Bits16Sps15 => 16
  | .Bits14Sps60 => 14
  | .Bits12Sps240 => 12

/-- Maximum output code, from Resolution::max. -/
def Resolution.max : Resolution → Int
  | .Bits16Sps15 => 32767
  | .Bits14Sps60 => 8191
  | .Bits12Sps240 => 2047

/-- Minimum output code, from Resolution::min. -/
def Resolution.min : Resolution → Int
  | .Bits16Sps15 => -32768
  | .Bits14Sps60 => -8192
  | .Bits12Sps240 => -2048

/-- Programmable gain amplifier setting, from enum Gain. -/
inductive Gain where
  | Gain1
  | Gain2
  | Gain4
  | Gain8
deriving DecidableEq

/-- Bit pattern of a gain, from the enum discriminants. -/
def Gain.bits : Gain → Nat
  | .Gain1 => 0b00000000
  | .Gain2 => 0b00000001
  | .Gain4 => 0b00000010
  | .Gain8 => 0b00000011

/-- Selected ADC channel, from enum Channel. -/
inductive Channel where
  | Channel1
  | Channel2
  | Channel3
  | Channel4
deriving DecidableEq

/-- Bit pattern of a channel, from the enum discriminants. -/
def Channel.bits : Channel → Nat
  | .Channel1 => 0b00000000
  | .Channel2 => 0b00100000
  | .Channel3 => 0b01000000
  | .Channel4 => 0b01100000

/-- Error taxonomy, from enum Error in the source. -/
inductive Error where
  | I2c
  | VoltageTooHigh
  | VoltageTooLow
  | NotInitialized
  | NotReady
deriving DecidableEq

namespace ConfigRegister

/-- Bit flag NOT_READY of ConfigRegister. -/
def NOT_READY : Nat := 0b10000000

/-- Bit flag MODE of ConfigRegister. -/
def MODE : Nat := 0b00010000

/-- Bit flag SAMPLE_RATE_H of ConfigRegister. -/
def SAMPLE_RATE_H : Nat := 0b00001000

/-- Bit flag SAMPLE_RATE_L of ConfigRegister. -/
def SAMPLE_RATE_L : Nat := 0b00000100

/-- Bit flag GAIN_H of ConfigRegister. -/
def GAIN_H : Nat := 0b00000010

/-- Bit flag GAIN_L of ConfigRegister. -/
def GAIN_L : Nat := 0b00000001

/-- Mask ALL of ConfigRegister: the bitwise OR of all the named flags.
Note that the channel bits 6 and 5 are absent from it. -/
def ALL : Nat :=
  NOT_READY ||| MODE ||| SAMPLE_RATE_H ||| SAMPLE_RATE_L ||| GAIN_H ||| GAIN_L

/-- ConfigRegister::is_ready on the stored register value: whether the
NOT_READY bit is clear. -/
def is_ready (value : Nat) : Bool :=
  (value &&& NOT_READY) != NOT_READY

end ConfigRegister

/-- ADC reference voltage in millivolts (the constant REF_MILLIVOLTS,
an i16 in the source; 2048 and 2 * 2048 both fit in i16, so plain Int
is exact here). -/
def REF_MILLIVOLTS : Int := 2048

/-- Driver state, from struct ThermostatConfig. The i2c field of the
source is the external bus handle and carries no data; it is modelled
by the stub arguments of the operations below. -/
structure ThermostatConfig where
  address : Nat
  mode : Mode
  resolution : Resolution
  gain : Gain
  channel : Channel
deriving DecidableEq

/-- Reduction of an Int modulo 2^32 into [-2^31, 2^31), the semantics of
wrapping i32 arithmetic. -/
def wrap32 (n : Int) : Int :=
  (n + 2 ^ 31) % 2 ^ 32 - 2 ^ 31

/-- Decoding of two big-endian bytes as an i16 two-complement value,
the semantics of i16::from_be_bytes in read_i2c. -/
def i16_from_be (b0 b1 : Nat) : Int :=
  let n : Nat := (b0 % 256) * 256 + b1 % 256
  if n < 32768 then (n : Int) else (n : Int) - 65536

namespace ThermostatConfig

/-- ThermostatConfig::get_sleep_ms: settle delay in milliseconds for the
active resolution. -/
def get_sleep_ms (c : ThermostatConfig) : Nat :=
  match c.resolution with
  | .Bits12Sps240 => 4
  | .Bits14Sps60 => 15
  | .Bits16Sps15 => 57

/-- ThermostatConfig::config_flag: OR of the channel, resolution and gain
bit fields. -/
def config_flag (c : ThermostatConfig) : Nat :=
  c.channel.bits ||| c.resolution.bits ||| c.gain.bits

/-- ThermostatConfig::command: the control byte. In one-shot mode the
NOT_READY bit doubles as the start-conversion marker and is ORed in. -/
def command (c : ThermostatConfig) : Nat :=
  match c.mode with
  | .OneShot => ConfigRegister.NOT_READY ||| c.mode.bits ||| c.config_flag
  | .Continuous => c.mode.bits ||| c.config_flag

/-- ThermostatConfig::calculate_voltage: voltage in mV for a raw
measurement, failing on the saturation codes of the active resolution.
The multiplication is performed in i32 (hence wrap32; for i16 inputs it
never actually wraps) and the division truncates toward zero. -/
def calculate_voltage (c : ThermostatConfig) (measurement : Int) : Except Error Int :=
  if measurement = c.resolution.max then
    .error .VoltageTooHigh
  else if measurement = c.resolution.min then
    .error .VoltageTooLow
  else
    .ok (Int.tdiv (wrap32 (measurement * (REF_MILLIVOLTS * 2))) (2 ^ c.resolution.res_bits))

end ThermostatConfig

/-- Outcome of one 3-byte bus read offered by the stub: a transport error
or three bytes [sample_high, sample_low, status]. -/
inductive ReadResult where
  | err
  | bytes (b0 b1 b2 : Nat)
deriving DecidableEq

/-- One observable bus or timer action of the driver, in order. -/
inductive BusEvent where
  | write (byte : Nat)
  | read
  | delay (ms : Nat)
deriving DecidableEq

namespace ThermostatConfig

/-- ThermostatConfig::read_i2c applied to one stub response: decode the
first two bytes as a big-endian i16 and mask the third with
ConfigRegister::ALL; a transport failure becomes Error::I2c. -/
def read_i2c : ReadResult → Except Error (Int × Nat)
  | .err => .error .I2c
  | .bytes b0 b1 b2 => .ok (i16_from_be b0 b1, b2 &&& ConfigRegister.ALL)

/-- ThermostatConfig::get_measurement: the read-and-poll loop. Each
iteration consumes one stub response; on a transport error it returns
Error::I2c, on a ready status it returns calculate_voltage of the
sample, otherwise it sleeps 1 ms and retries. The none result means the
finite stub was exhausted before the loop terminated. -/
def get_measurement (c : ThermostatConfig) :
    List ReadResult → Option (Except Error Int) × List BusEvent
  | [] => (none, [])
  | r :: rest =>
    match read_i2c r with
    | .error e => (some (.error e), [.read])
    | .ok (measurement, reg) =>
      if ConfigRegister.is_ready reg then
        (some (c.calculate_voltage measurement), [.read])
      else
        let p := get_measurement c rest
        (p.1, .read :: .delay 1 :: p.2)

/-- ThermostatConfig::one_shot_measurement: write the control byte (on
failure return Error::I2c at once), sleep get_sleep_ms + 2 ms, then run
the read-and-poll loop. -/
def one_shot_measurement (c : ThermostatConfig) (writeOk : Bool)
    (reads : List ReadResult) : Option (Except Error Int) × List BusEvent :=
  if writeOk then
    let p := c.get_measurement reads
    (p.1, .write c.command :: .delay (c.get_sleep_ms + 2) :: p.2)
  else
    (some (.error .I2c), [.write c.command])

/-- Polling loop of ThermostatConfig::write_config: read 3 bytes, check
ConfigRegister::ALL &&& buf[2] for readiness, return Ok when ready,
otherwise sleep 1 ms and retry. -/
def write_config_poll : List ReadResult → Option (Except Error Unit) × List BusEvent
  | [] => (none, [])
  | r :: rest =>
    match r with
    | .err => (some (.error .I2c), [.read])
    | .bytes _ _ b2 =>
      if ConfigRegister.is_ready (ConfigRegister.ALL &&& b2) then
        (some (.ok ()), [.read])
      else
        let p := write_config_poll rest
        (p.1, .read :: .delay 1 :: p.2)

/-- ThermostatConfig::write_config: write the control byte (on failure
return Error::I2c at once), sleep get_sleep_ms ms, then poll until a
ready status. -/
def write_config (c : ThermostatConfig) (writeOk : Bool)
    (reads : List ReadResult) : Option (Except Error Unit) × List BusEvent :=
  if writeOk then
    let p := write_config_poll reads
    (p.1, .write c.command :: .delay c.get_sleep_ms :: p.2)
  else
    (some (.error .I2c), [.write c.command])

end ThermostatConfig

/-- Decoder of control-byte bits 6 and 5 as a channel selection
(the inverse of Channel.bits on its range). -/
def decodeChannel (b : Nat) : Channel :=
  match (b >>> 5) &&& 3 with
  | 0 => .Channel1
  | 1 => .Channel2
  | 2 => .Channel3
  | _ => .Channel4

/-- Decoder of control-byte bit 4 as a mode selection. -/
def decodeMode (b : Nat) : Mode :=
  if (b >>> 4) &&& 1 = 1 then .Continuous else .OneShot

/-- Decoder of control-byte bits 3 and 2 as a resolution selection; the
fourth bit pattern is assigned to no resolution. -/
def decodeResolution (b : Nat) : Option Resolution :=
  match (b >>> 2) &&& 3 with
  | 0 => some .Bits12Sps240
  | 1 => some .Bits14Sps60
  | 2 => some .Bits16Sps15
  | _ => none

/-- Decoder of control-byte bits 1 and 0 as a gain selection. -/
def decodeGain (b : Nat) : Gain :=
  match b &&& 3 with
  | 0 => .Gain1
  | 1 => .Gain2
  | 2 => .Gain4
  | _ => .Gain8

/-- Expected event list of a poll loop that sees n not-ready responses
followed by one ready response: n pairs of a read and a 1 ms delay, then
the final read. -/
def pollTrace : Nat → List BusEvent
  | 0 => [.read]
  | n + 1 => .read :: .delay 1 :: pollTrace n

/-- Whether a stub response is a successful read whose status byte,
masked with ConfigRegister::ALL, reports not ready. -/
def isNotReadyResp : ReadResult → Bool
  | .err => false
  | .bytes _ _ b2 => !ConfigRegister.is_ready (ConfigRegister.ALL &&& b2)

/-- The control byte does not depend on the bus address field. -/
theorem command_mk_address_zero (addr : Nat) (mo : Mode) (re : Resolution)
    (ga : Gain) (ch : Channel) :
    ThermostatConfig.command ⟨addr, mo, re, ga, ch⟩
      = ThermostatConfig.command ⟨0, mo, re, ga, ch⟩ := by
  cases mo <;> rfl

set_option maxRecDepth 4000 in
/-- C6: for every status byte value below 256, is_ready is false exactly
when bit 7 of the byte is set, and true otherwise. -/
theorem C6_is_ready_iff_bit7 :
    ∀ v : Nat, v < 256 →
      (ConfigRegister.is_ready v = false ↔ v.testBit 7 = true) ∧
      (ConfigRegister.is_ready v = true ↔ v.testBit 7 = false) := by
  decide

/-- Witness for C6 at the byte 128: bit 7 set, is_ready false. -/
theorem C6_witness :
    (ConfigRegister.is_ready 128 = false ↔ Nat.testBit 128 7 = true) ∧
    (ConfigRegister.is_ready 128 = true ↔ Nat.testBit 128 7 = false) :=
  C6_is_ready_iff_bit7 128 (by decide)

/-- C7: the settle delay is a fixed function of the active resolution,
4 ms at 240 SPS, 15 ms at 60 SPS and 57 ms at 15 SPS, and it grows
strictly as the sample rate falls. -/
theorem C7_settle_delay (addr : Nat) (mo : Mode) (ga : Gain) (ch : Channel) :
    ThermostatConfig.get_sleep_ms ⟨addr, mo, .Bits12Sps240, ga, ch⟩ = 4 ∧
    ThermostatConfig.get_sleep_ms ⟨addr, mo, .Bits14Sps60, ga, ch⟩ = 15 ∧
    ThermostatConfig.get_sleep_ms ⟨addr, mo, .Bits16Sps15, ga, ch⟩ = 57 ∧
    ThermostatConfig.get_sleep_ms ⟨addr, mo, .Bits12Sps240, ga, ch⟩ <
      ThermostatConfig.get_sleep_ms ⟨addr, mo, .Bits14Sps60, ga, ch⟩ ∧
    ThermostatConfig.get_sleep_ms ⟨addr, mo, .Bits14Sps60, ga, ch⟩ <
      ThermostatConfig.get_sleep_ms ⟨addr, mo, .Bits16Sps15, ga, ch⟩ := by
  refine ⟨rfl, rfl, rfl, ?_, ?_⟩ <;> simp [ThermostatConfig.get_sleep_ms]

/-- C5: encoding a configuration to its control byte and decoding the
channel (bits 6 and 5), mode (bit 4), resolution (bits 3 and 2) and gain
(bits 1 and 0) sub-fields recovers the original selections, for every
combination of the four enumerations. -/
theorem C5_control_byte_roundtrip (addr : Nat) (mo : Mode) (re : Resolution)
    (ga : Gain) (ch : Channel) :
    decodeChannel (ThermostatConfig.command ⟨addr, mo, re, ga, ch⟩) = ch ∧
    decodeMode (ThermostatConfig.command ⟨addr, mo, re, ga, ch⟩) = mo ∧
    decodeResolution (ThermostatConfig.command ⟨addr, mo, re, ga, ch⟩) = some re ∧
    decodeGain (ThermostatConfig.command ⟨addr, mo, re, ga, ch⟩) = ga := by
  have h : ThermostatConfig.command ⟨addr, mo, re, ga, ch⟩
      = ThermostatConfig.command ⟨0, mo, re, ga, ch⟩ := by
    cases mo <;> rfl
  rw [h]
  cases mo <;> cases re <;> cases ga <;> cases ch <;> decide

/-- C1: calculate_voltage fails with the over-range error exactly when
the sample equals the maximum code of the active resolution (2047, 8191
or 32767), fails with the under-range error exactly when it equals the
minimum code (-2048, -8192 or -32768), and succeeds on every other
input. -/
theorem C1_saturation_errors (c : ThermostatConfig) (m : Int) :
    (c.calculate_voltage m = .error .VoltageTooHigh ↔ m = c.resolution.max) ∧
    (c.calculate_voltage m = .error .VoltageTooLow ↔ m = c.resolution.min) ∧
    (m ≠ c.resolution.max → m ≠ c.resolution.min →
      ∃ v, c.calculate_voltage m = .ok v) ∧
    Resolution.max .Bits12Sps240 = 2047 ∧ Resolution.min .Bits12Sps240 = -2048 ∧
    Resolution.max .Bits14Sps60 = 8191 ∧ Resolution.min .Bits14Sps60 = -8192 ∧
    Resolution.max .Bits16Sps15 = 32767 ∧ Resolution.min .Bits16Sps15 = -32768 := by
  have hne : c.resolution.max ≠ c.resolution.min := by
    cases c.resolution <;> decide
  refine ⟨?_, ?_, ?_, rfl, rfl, rfl, rfl, rfl, rfl⟩
  · by_cases h1 : m = c.resolution.max
    · simp [ThermostatConfig.calculate_voltage, h1]
    · by_cases h2 : m = c.resolution.min <;>
        simp [ThermostatConfig.calculate_voltage, h1, h2]
  · by_cases h1 : m = c.resolution.max
    · subst h1
      simp [ThermostatConfig.calculate_voltage, hne]
    · by_cases h2 : m = c.resolution.min <;>
        simp [ThermostatConfig.calculate_voltage, h1, h2, Ne.symm hne]
  · intro h1 h2
    refine ⟨(wrap32 (m * (REF_MILLIVOLTS * 2))).tdiv (2 ^ c.resolution.res_bits), ?_⟩
    simp [ThermostatConfig.calculate_voltage, h1, h2]

/-- Witness for C1 at 12-bit resolution and sample 0, which saturates
neither bound and succeeds. -/
theorem C1_witness :
    ∃ v, ThermostatConfig.calculate_voltage
      ⟨0, .OneShot, .Bits12Sps240, .Gain1, .Channel1⟩ 0 = .ok v :=
  (C1_saturation_errors ⟨0, .OneShot, .Bits12Sps240, .Gain1, .Channel1⟩ 0).2.2.1
    (by decide) (by decide)

/-- C2: away from the saturation codes, calculate_voltage returns
sample * (2 * 2048) / 2^res_bits, the product being exact in 32-bit
signed arithmetic for every i16 sample and the division truncating
toward zero; at 12-bit resolution input 1024 yields 1024 mV and input
-1024 yields -1024 mV. -/
theorem C2_linear_formula (c : ThermostatConfig) (m : Int)
    (hlo : -32768 ≤ m) (hhi : m ≤ 32767)
    (hmax : m ≠ c.resolution.max) (hmin : m ≠ c.resolution.min) :
    c.calculate_voltage m
      = .ok (Int.tdiv (m * (2 * 2048)) (2 ^ c.resolution.res_bits)) ∧
    ThermostatConfig.calculate_voltage
      ⟨0, .OneShot, .Bits12Sps240, .Gain1, .Channel1⟩ 1024 = .ok 1024 ∧
    ThermostatConfig.calculate_voltage
      ⟨0, .OneShot, .Bits12Sps240, .Gain1, .Channel1⟩ (-1024) = .ok (-1024) := by
  refine ⟨?_, rfl, rfl⟩
  have hw : wrap32 (m * (REF_MILLIVOLTS * 2)) = m * (2 * 2048) := by
    simp only [wrap32, REF_MILLIVOLTS]
    omega
  unfold ThermostatConfig.calculate_voltage
  rw [if_neg hmax, if_neg hmin, hw]

/-- Witness for C2 at 12-bit resolution and sample 3: in range, not a
saturation code, and the formula gives 3 mV. -/
theorem C2_witness :
    ThermostatConfig.calculate_voltage
      ⟨0, .OneShot, .Bits12Sps240, .Gain1, .Channel1⟩ 3
      = .ok (Int.tdiv (3 * (2 * 2048)) (2 ^ 12)) :=
  (C2_linear_formula ⟨0, .OneShot, .Bits12Sps240, .Gain1, .Channel1⟩ 3
    (by decide) (by decide) (by decide) (by decide)).1

/-- C3: in one-shot mode the measurement performs exactly one bus write
whose byte has the start marker (bit 7) set, then exactly one delay of
get_sleep_ms + 2, then the poll loop: a stub that is ready on the first
read yields exactly one read; a stub that is not ready twice and then
ready yields three reads with two 1 ms delays between them. -/
theorem C3_one_shot_sequence (c : ThermostatConfig) (hmode : c.mode = Mode.OneShot) :
    c.command &&& 128 = 128 ∧
    (∀ b0 b1 b2 : Nat,
      ConfigRegister.is_ready (b2 &&& ConfigRegister.ALL) = true →
      c.one_shot_measurement true [ReadResult.bytes b0 b1 b2]
        = (some (c.calculate_voltage (i16_from_be b0 b1)),
           [BusEvent.write c.command, BusEvent.delay (c.get_sleep_ms + 2),
            BusEvent.read])) ∧
    (∀ n0 n1 n2 p0 p1 p2 b0 b1 b2 : Nat,
      ConfigRegister.is_ready (n2 &&& ConfigRegister.ALL) = false →
      ConfigRegister.is_ready (p2 &&& ConfigRegister.ALL) = false →
      ConfigRegister.is_ready (b2 &&& ConfigRegister.ALL) = true →
      c.one_shot_measurement true
          [ReadResult.bytes n0 n1 n2, ReadResult.bytes p0 p1 p2,
           ReadResult.bytes b0 b1 b2]
        = (some (c.calculate_voltage (i16_from_be b0 b1)),
           [BusEvent.write c.command, BusEvent.delay (c.get_sleep_ms + 2),
            BusEvent.read, BusEvent.delay 1, BusEvent.read, BusEvent.delay 1,
            BusEvent.read])) := by
  refine ⟨?_, ?_, ?_⟩
  · obtain ⟨addr, mo, re, ga, ch⟩ := c
    subst hmode
    rw [command_mk_address_zero]
    cases re <;> cases ga <;> cases ch <;> decide
  · intro b0 b1 b2 hready
    simp [ThermostatConfig.one_shot_measurement, ThermostatConfig.get_measurement,
      ThermostatConfig.read_i2c, hready]
  · intro n0 n1 n2 p0 p1 p2 b0 b1 b2 hn hp hready
    simp [ThermostatConfig.one_shot_measurement, ThermostatConfig.get_measurement,
      ThermostatConfig.read_i2c, hn, hp, hready]

/-- Witness for C3 with the default one-shot configuration and a stub
whose single response is ready with sample bytes 0 and 1. -/
theorem C3_witness :
    ThermostatConfig.one_shot_measurement
        ⟨0, .OneShot, .Bits12Sps240, .Gain1, .Channel1⟩ true [ReadResult.bytes 0 1 0]
      = (some (ThermostatConfig.calculate_voltage
            ⟨0, .OneShot, .Bits12Sps240, .Gain1, .Channel1⟩ (i16_from_be 0 1)),
         [BusEvent.write
            (ThermostatConfig.command ⟨0, .OneShot, .Bits12Sps240, .Gain1, .Channel1⟩),
          BusEvent.delay
            (ThermostatConfig.get_sleep_ms ⟨0, .OneShot, .Bits12Sps240, .Gain1, .Channel1⟩ + 2),
          BusEvent.read]) :=
  (C3_one_shot_sequence ⟨0, .OneShot, .Bits12Sps240, .Gain1, .Channel1⟩ rfl).2.1
    0 1 0 (by decide)

/-- The polling loop of write_config consumes every leading not-ready
response with a read and a 1 ms delay, and stops with success at the
first ready response, leaving the rest of the stub untouched. -/
theorem write_config_poll_spec (pre post : List ReadResult) (b0 b1 b2 : Nat)
    (hpre : ∀ r ∈ pre, isNotReadyResp r = true)
    (hready : ConfigRegister.is_ready (ConfigRegister.ALL &&& b2) = true) :
    ThermostatConfig.write_config_poll (pre ++ ReadResult.bytes b0 b1 b2 :: post)
      = (some (.ok ()), pollTrace pre.length) := by
  induction pre with
  | nil =>
    simp [ThermostatConfig.write_config_poll, hready, pollTrace]
  | cons r rest ih =>
    cases r with
    | err =>
      have hr := hpre ReadResult.err (by simp)
      simp [isNotReadyResp] at hr
    | bytes x y z =>
      have hr := hpre (ReadResult.bytes x y z) (by simp)
      have hz : ConfigRegister.is_ready (ConfigRegister.ALL &&& z) = false := by
        simpa [isNotReadyResp] using hr
      have ih2 := ih (fun r hrm => hpre r (by simp [hrm]))
      simp [ThermostatConfig.write_config_poll, hz, pollTrace, ih2]

/-- C8: in continuous mode, write_config writes the control byte with
bit 7 clear, delays exactly get_sleep_ms (no 2 ms margin), then reads;
each not-ready response costs one read and a 1 ms delay, and the first
ready response ends the call successfully with no further bus
operations. -/
theorem C8_write_config_sequence (c : ThermostatConfig)
    (hmode : c.mode = Mode.Continuous) (pre post : List ReadResult) (b0 b1 b2 : Nat)
    (hpre : ∀ r ∈ pre, isNotReadyResp r = true)
    (hready : ConfigRegister.is_ready (ConfigRegister.ALL &&& b2) = true) :
    c.command &&& 128 = 0 ∧
    c.write_config true (pre ++ ReadResult.bytes b0 b1 b2 :: post)
      = (some (.ok ()),
         BusEvent.write c.command :: BusEvent.delay c.get_sleep_ms ::
           pollTrace pre.length) := by
  constructor
  · obtain ⟨addr, mo, re, ga, ch⟩ := c
    subst hmode
    rw [command_mk_address_zero]
    cases re <;> cases ga <;> cases ch <;> decide
  · simp [ThermostatConfig.write_config,
      write_config_poll_spec pre post b0 b1 b2 hpre hready]

/-- Witness for C8 with the default configuration switched to continuous
mode and a stub that is ready at once. -/
theorem C8_witness :
    ThermostatConfig.command ⟨0, .Continuous, .Bits12Sps240, .Gain1, .Channel1⟩ &&& 128 = 0 ∧
    ThermostatConfig.write_config ⟨0, .Continuous, .Bits12Sps240, .Gain1, .Channel1⟩ true
        ([] ++ ReadResult.bytes 0 0 0 :: [])
      = (some (.ok ()),
         BusEvent.write (ThermostatConfig.command ⟨0, .Continuous, .Bits12Sps240, .Gain1, .Channel1⟩)
           :: BusEvent.delay
                (ThermostatConfig.get_sleep_ms ⟨0, .Continuous, .Bits12Sps240, .Gain1, .Channel1⟩)
           :: pollTrace (List.length ([] : List ReadResult))) :=
  C8_write_config_sequence ⟨0, .Continuous, .Bits12Sps240, .Gain1, .Channel1⟩ rfl
    [] [] 0 0 0 (by simp) (by decide)

/-- C9: a failing bus write aborts one_shot_measurement and write_config
at once with the bus error and no further events; a failing bus read
aborts the poll loops the same way; and a ready read whose sample is a
saturation code ends get_measurement at once with the saturation error,
without re-entering the loop. -/
theorem C9_abort_semantics (c : ThermostatConfig) (reads rest : List ReadResult)
    (r0 r1 r2 : Nat) :
    c.one_shot_measurement false reads
      = (some (.error .I2c), [BusEvent.write c.command]) ∧
    c.write_config false reads
      = (some (.error .I2c), [BusEvent.write c.command]) ∧
    c.get_measurement (ReadResult.err :: rest)
      = (some (.error .I2c), [BusEvent.read]) ∧
    ThermostatConfig.write_config_poll (ReadResult.err :: rest)
      = (some (.error .I2c), [BusEvent.read]) ∧
    (ConfigRegister.is_ready (r2 &&& ConfigRegister.ALL) = true →
      i16_from_be r0 r1 = c.resolution.max →
      c.get_measurement (ReadResult.bytes r0 r1 r2 :: rest)
        = (some (.error .VoltageTooHigh), [BusEvent.read])) ∧
    (ConfigRegister.is_ready (r2 &&& ConfigRegister.ALL) = true →
      i16_from_be r0 r1 = c.resolution.min →
      c.get_measurement (ReadResult.bytes r0 r1 r2 :: rest)
        = (some (.error .VoltageTooLow), [BusEvent.read])) := by
  have hne : c.resolution.max ≠ c.resolution.min := by
    cases c.resolution <;> decide
  refine ⟨?_, ?_, ?_, ?_, ?_, ?_⟩
  · simp [ThermostatConfig.one_shot_measurement]
  · simp [ThermostatConfig.write_config]
  · simp [ThermostatConfig.get_measurement, ThermostatConfig.read_i2c]
  · simp [ThermostatConfig.write_config_poll]
  · intro hready hmax
    simp [ThermostatConfig.get_measurement, ThermostatConfig.read_i2c, hready,
      ThermostatConfig.calculate_voltage, hmax]
  · intro hready hmin
    simp [ThermostatConfig.get_measurement, ThermostatConfig.read_i2c, hready,
      ThermostatConfig.calculate_voltage, hmin, Ne.symm hne]

/-- Witness for C9: at 12-bit resolution a ready read of the code 2047
(bytes 7 and 255) ends the poll loop with the over-range error after a
single read. -/
theorem C9_witness :
    ThermostatConfig.get_measurement ⟨0, .OneShot, .Bits12Sps240, .Gain1, .Channel1⟩
        (ReadResult.bytes 7 255 0 :: [])
      = (some (.error .VoltageTooHigh), [BusEvent.read]) :=
  (C9_abort_semantics ⟨0, .OneShot, .Bits12Sps240, .Gain1, .Channel1⟩ [] [] 7 255 0).2.2.2.2.1
    (by decide) (by decide)

/-- C4 as stated is false: the stored status value is the byte masked
with ConfigRegister::ALL, and the mask clears bits 6 and 5. Decoding the
byte 96 (both channel-echo bits set) stores 0, which does not preserve
bit 5. -/
theorem C4_counterexample :
    ThermostatConfig.read_i2c (ReadResult.bytes 0 0 96) = .ok (0, 0) ∧
    Nat.testBit 96 5 = true ∧ Nat.testBit 0 5 = false :=
  ⟨rfl, by decide, by decide⟩

set_option maxRecDepth 8000 in
/-- C4 amended: the decoded status value is the raw byte masked with
ConfigRegister::ALL, so bits 7, 4, 3, 2, 1 and 0 of the input byte are
preserved while the channel-echo bits 6 and 5 are cleared. -/
theorem C4_status_mask (b0 b1 b2 : Nat) (hb : b2 < 256) :
    ThermostatConfig.read_i2c (ReadResult.bytes b0 b1 b2)
      = .ok (i16_from_be b0 b1, b2 &&& ConfigRegister.ALL) ∧
    (b2 &&& ConfigRegister.ALL).testBit 5 = false ∧
    (b2 &&& ConfigRegister.ALL).testBit 6 = false ∧
    ∀ i, i < 8 → i ≠ 5 → i ≠ 6 →
      (b2 &&& ConfigRegister.ALL).testBit i = b2.testBit i := by
  refine ⟨rfl, ?_⟩
  revert hb
  revert b2
  decide

/-- Witness for C4 at the byte 255: the stored value is 159 and keeps
every bit of the byte except bits 6 and 5. -/
theorem C4_witness :
    ThermostatConfig.read_i2c (ReadResult.bytes 0 0 255)
      = .ok (i16_from_be 0 0, 255 &&& ConfigRegister.ALL) ∧
    (255 &&& ConfigRegister.ALL).testBit 5 = false ∧
    (255 &&& ConfigRegister.ALL).testBit 6 = false ∧
    ∀ i, i < 8 → i ≠ 5 → i ≠ 6 →
      (255 &&& ConfigRegister.ALL).testBit i = Nat.testBit 255 i :=
  C4_status_mask 0 0 255 (by decide)

/-- C10 as stated is false: at 12-bit resolution the i16 sample 3000 is
not a saturation code (the codes are 2047 and -2048), yet the returned
voltage 3000 mV is not below the 2048 mV full scale. -/
theorem C10_counterexample :
    ThermostatConfig.calculate_voltage
      ⟨0, .OneShot, .Bits12Sps240, .Gain1, .Channel1⟩ 3000 = .ok 3000 ∧
    ¬((3000 : Int) < 2048) :=
  ⟨rfl, by decide⟩

/-- C10 amended: for every sample strictly between the minimum and
maximum codes of the active resolution, calculate_voltage succeeds and
the result lies strictly within the full-scale range of -2048 mV to
2048 mV. -/
theorem C10_result_in_full_scale (c : ThermostatConfig) (m : Int)
    (hlo : c.resolution.min < m) (hhi : m < c.resolution.max) :
    ∃ v, c.calculate_voltage m = .ok v ∧ -2048 < v ∧ v < 2048 := by
  obtain ⟨addr, mo, re, ga, ch⟩ := c
  cases re with
  | Bits12Sps240 =>
    have hlo2 : (-2048 : Int) < m := hlo
    have hhi2 : m < 2047 := hhi
    have hmax : m ≠ 2047 := by omega
    have hmin : m ≠ (-2048 : Int) := by omega
    have hw : wrap32 (m * (REF_MILLIVOLTS * 2)) = m * 4096 := by
      simp only [wrap32, REF_MILLIVOLTS]
      omega
    have hbound : -2048 < (m * 4096).tdiv 4096 ∧ (m * 4096).tdiv 4096 < 2048 := by
      rcases le_or_lt 0 m with hm | hm
      · have h1 : (m * 4096).tdiv 4096 = m * 4096 / 4096 :=
          Int.tdiv_eq_ediv (by omega) (by omega)
        omega
      · have h1 : (m * 4096).tdiv 4096 = -((-(m * 4096)).tdiv 4096) := by
          rw [← Int.neg_tdiv, Int.neg_neg]
        have h2 : (-(m * 4096)).tdiv 4096 = -(m * 4096) / 4096 :=
          Int.tdiv_eq_ediv (by omega) (by omega)
        rw [h2] at h1
        omega
    refine ⟨(m * 4096).tdiv 4096, ?_, hbound.1, hbound.2⟩
    simp [ThermostatConfig.calculate_voltage, Resolution.max, Resolution.min,
      Resolution.res_bits, hmax, hmin, hw]
  | Bits14Sps60 =>
    have hlo2 : (-8192 : Int) < m := hlo
    have hhi2 : m < 8191 := hhi
    have hmax : m ≠ 8191 := by omega
    have hmin : m ≠ (-8192 : Int) := by omega
    have hw : wrap32 (m * (REF_MILLIVOLTS * 2)) = m * 4096 := by
      simp only [wrap32, REF_MILLIVOLTS]
      omega
    have hbound : -2048 < (m * 4096).tdiv 16384 ∧ (m * 4096).tdiv 16384 < 2048 := by
      rcases le_or_lt 0 m with hm | hm
      · have h1 : (m * 4096).tdiv 16384 = m * 4096 / 16384 :=
          Int.tdiv_eq_ediv (by omega) (by omega)
        omega
      · have h1 : (m * 4096).tdiv 16384 = -((-(m * 4096)).tdiv 16384) := by
          rw [← Int.neg_tdiv, Int.neg_neg]
        have h2 : (-(m * 4096)).tdiv 16384 = -(m * 4096) / 16384 :=
          Int.tdiv_eq_ediv (by omega) (by omega)
        rw [h2] at h1
        omega
    refine ⟨(m * 4096).tdiv 16384, ?_, hbound.1, hbound.2⟩
    simp [ThermostatConfig.calculate_voltage, Resolution.max, Resolution.min,
      Resolution.res_bits, hmax, hmin, hw]
  | Bits16Sps15 =>
    have hlo2 : (-32768 : Int) < m := hlo
    have hhi2 : m < 32767 := hhi
    have hmax : m ≠ 32767 := by omega
    have hmin : m ≠ (-32768 : Int) := by omega
    have hw : wrap32 (m * (REF_MILLIVOLTS * 2)) = m * 4096 := by
      simp only [wrap32, REF_MILLIVOLTS]
      omega
    have hbound : -2048 < (m * 4096).tdiv 65536 ∧ (m * 4096).tdiv 65536 < 2048 := by
      rcases le_or_lt 0 m with hm | hm
      · have h1 : (m * 4096).tdiv 65536 = m * 4096 / 65536 :=
          Int.tdiv_eq_ediv (by omega) (by omega)
        omega
      · have h1 : (m * 4096).tdiv 65536 = -((-(m * 4096)).tdiv 65536) := by
          rw [← Int.neg_tdiv, Int.neg_neg]
        have h2 : (-(m * 4096)).tdiv 65536 = -(m * 4096) / 65536 :=
          Int.tdiv_eq_ediv (by omega) (by omega)
        rw [h2] at h1
        omega
    refine ⟨(m * 4096).tdiv 65536, ?_, hbound.1, hbound.2⟩
    simp [ThermostatConfig.calculate_voltage, Resolution.max, Resolution.min,
      Resolution.res_bits, hmax, hmin, hw]

/-- Witness for the amended C10 at 12-bit resolution and sample 100. -/
theorem C10_witness :
    ∃ v, ThermostatConfig.calculate_voltage
        ⟨0, .OneShot, .Bits12Sps240, .Gain1, .Channel1⟩ 100 = .ok v ∧
      -2048 < v ∧ v < 2048 :=
  C10_result_in_full_scale ⟨0, .OneShot, .Bits12Sps240, .Gain1, .Channel1⟩ 100
    (by decide) (by decide)

end Mcp3428
